import Mathlib

/-!
Verification development for the fynesse housing-price pipeline.

The Python sources (`fynesse/assess.py`, `fynesse/address.py`, `fynesse/access.py`)
are embedded shallowly below: pure numeric code becomes functions over `ℝ`,
pandas data frames become column-major association lists, exceptions become
`Except String`, the database and the OpenStreetMap POI service become
function parameters, and the unbounded `while True` sampling loop becomes a
fuel-indexed recursion (`none` = the loop has not finished within the given
number of iterations).
-/

namespace Fynesse

/-- A point of interest; only the centroid of its geometry is ever used by the
feature code (`row[1]["geometry"].centroid.{y,x}` in `assess.py`). -/
structure POI where
  centroid_y : ℝ
  centroid_x : ℝ

/-- The planar degree-space distance computed inline in each of the three
feature functions of `assess.py`:
`math.sqrt((latitude - centroid.y)**2 + (longitude - centroid.x)**2)`. -/
noncomputable def dist (latitude longitude : ℝ) (p : POI) : ℝ :=
  Real.sqrt ((latitude - p.centroid_y) ^ 2 + (longitude - p.centroid_x) ^ 2)

/-- `assess.get_average_distance_to_POI` (lines 80–98).  The Python loop sums
distances that are `≤ threshold` and finally evaluates
`total_dis / len(pois) * 111`; when `pois` is empty this division is `0 / 0`
and raises `ZeroDivisionError`, modelled as `Except.error`. -/
noncomputable def get_average_distance_to_POI (latitude longitude : ℝ)
    (pois : List POI) (threshold : ℝ) : Except String ℝ :=
  let total_dis : ℝ := pois.foldl
    (fun acc p =>
      let dis := dist latitude longitude p
      if dis > threshold then acc else acc + dis) 0
  if pois.length = 0 then Except.error "ZeroDivisionError"
  else Except.ok (total_dis / pois.length * 111)

/-- `assess.get_cnt_of_POI` (lines 101–118): counts POIs whose distance is not
greater than `threshold`. -/
noncomputable def get_cnt_of_POI (latitude longitude : ℝ)
    (pois : List POI) (threshold : ℝ) : ℝ :=
  pois.foldl
    (fun cnt p =>
      let dis := dist latitude longitude p
      if dis > threshold then cnt else cnt + 1) 0

/-- `assess.get_shortest_distance_to_POI` (lines 121–137): folds `min` over all
POI distances starting from `threshold`, then multiplies the result by 111. -/
noncomputable def get_shortest_distance_to_POI (latitude longitude : ℝ)
    (pois : List POI) (threshold : ℝ) : ℝ :=
  (pois.foldl (fun shortest_dist p => min shortest_dist (dist latitude longitude p))
    threshold) * 111

/-- A pandas data frame, column-major: a list of (column name, column values)
pairs in column order.  All columns of a well-formed frame have the same
length (the row count). -/
abbrev DataFrame := List (String × List ℝ)

/-- `df[name]`-style column read: the first column whose name matches. -/
def getCol (df : DataFrame) (name : String) : Option (List ℝ) :=
  (df.find? (fun c => c.1 == name)).map Prod.snd

/-- `df[name] = values`: pandas replaces the column in place when the name
already exists and appends a new column otherwise. -/
def setCol (df : DataFrame) (name : String) (vs : List ℝ) : DataFrame :=
  if name ∈ df.map Prod.fst then
    df.map (fun c => if c.1 = name then (name, vs) else c)
  else df ++ [(name, vs)]

/-- Row count of a data frame (length of its first column). -/
def nrows (df : DataFrame) : ℕ :=
  match df with
  | [] => 0
  | c :: _ => c.2.length

/-- `df.apply(..., axis=1)`: evaluate the feature function on each
(lattitude, longitude) row in order; the first raised exception aborts. -/
def applyRows (f : ℝ → ℝ → Except String ℝ) : List (ℝ × ℝ) → Except String (List ℝ)
  | [] => Except.ok []
  | r :: rest =>
    match f r.1 r.2 with
    | Except.error e => Except.error e
    | Except.ok v =>
      match applyRows f rest with
      | Except.error e => Except.error e
      | Except.ok vs => Except.ok (v :: vs)

/-- One entry of the feature-specification JSON: OSM tags plus the list of
aggregation method names. -/
structure FeatureProp where
  tags : List (String × String)
  methods : List String

/-- Python `dict[key]` access: `KeyError` when the key is absent. -/
def dictGet {α : Type} (m : List (String × α)) (key : String) : Except String α :=
  match m.find? (fun c => c.1 == key) with
  | some c => Except.ok c.2
  | none => Except.error "KeyError"

/-- `assess.calculate_single_feature` (lines 248–268): computes the feature
column `feature_name + "_" + method_name` by applying `feature_fn` to each
row's `lattitude`/`longitude` and assigns it into the frame. -/
noncomputable def calculate_single_feature (df : DataFrame)
    (feature_fn : ℝ → ℝ → List POI → ℝ → Except String ℝ) (dist_threshold : ℝ)
    (method_name : String) (poi : List POI) (feature_name : String) :
    Except String DataFrame :=
  let column_name := feature_name ++ "_" ++ method_name
  match getCol df "lattitude", getCol df "longitude" with
  | some lats, some lons =>
    match applyRows (fun la lo => feature_fn la lo poi dist_threshold) (lats.zip lons) with
    | Except.error e => Except.error e
    | Except.ok vals => Except.ok (setCol df column_name vals)
  | _, _ => Except.error "AttributeError"

/-- The `if/elif/else` dispatch on `method_name` in `assess.calculate_features`
(lines 281–288); an unknown method raises `NotImplementedError`. -/
noncomputable def selectFn (method_name : String) :
    Except String (ℝ → ℝ → List POI → ℝ → Except String ℝ) :=
  if method_name = "cnt" then
    Except.ok (fun la lo poi t => Except.ok (get_cnt_of_POI la lo poi t))
  else if method_name = "avg_dist" then
    Except.ok get_average_distance_to_POI
  else if method_name = "shortest_dist" then
    Except.ok (fun la lo poi t => Except.ok (get_shortest_distance_to_POI la lo poi t))
  else Except.error "NotImplementedError"

/-- Inner loop of `assess.calculate_features`: fold over the method names of
one feature category, threading the growing frame. -/
noncomputable def calcMethods (dist_threshold : ℝ) (pois_map : List (String × List POI))
    (df : DataFrame) (feature_name : String) : List String → Except String DataFrame
  | [] => Except.ok df
  | m :: ms =>
    match selectFn m with
    | Except.error e => Except.error e
    | Except.ok fn =>
      match dictGet pois_map feature_name with
      | Except.error e => Except.error e
      | Except.ok poi =>
        match calculate_single_feature df fn dist_threshold m poi feature_name with
        | Except.error e => Except.error e
        | Except.ok df' => calcMethods dist_threshold pois_map df' feature_name ms

/-- `assess.calculate_features` (lines 271–297): the nested
`for feature_name / for method_name` loops, reassigning `df` each time. -/
noncomputable def calculate_features (df : DataFrame)
    (features : List (String × FeatureProp)) (dist_threshold : ℝ)
    (pois_map : List (String × List POI)) : Except String DataFrame :=
  match features with
  | [] => Except.ok df
  | (fname, prop) :: rest =>
    match calcMethods dist_threshold pois_map df fname prop.methods with
    | Except.error e => Except.error e
    | Except.ok df' => calculate_features df' rest dist_threshold pois_map

/-- Every column of `df` has exactly `n` values (the row count). -/
def wfTable (df : DataFrame) (n : ℕ) : Prop := ∀ c ∈ df, c.2.length = n

/-- Column names generated for one category. -/
def methodCols (feature_name : String) (ms : List String) : List String :=
  ms.map (fun m => feature_name ++ "_" ++ m)

/-- All column names generated by a feature specification, in generation
order: one name per (category, method) pair. -/
def featureCols (features : List (String × FeatureProp)) : List String :=
  features.flatMap (fun fp => methodCols fp.1 fp.2.methods)

/-- One joined transaction row, with the columns `predict_price` and
`evaluate_model` read.  Dates are modelled as real-valued ordinals (Python's
dynamic typing puts dates and coordinates in the same universe, which is what
lets the fallback call in `predict_price` scramble them). -/
structure Transaction where
  db_id : ℕ
  price : ℝ
  lattitude : ℝ
  longitude : ℝ
  date_of_transfer : ℝ
  property_type : String

/-- The parameters `access.get_joined_transactions` (lines 302–371) pours into
its SQL query, in its signature's order: `start_date`, `end_date`, then the
optional `latitude`, `longitude`, `box_width`, `box_height`, `property_type`
(a `none` means the corresponding SQL constraint is omitted). -/
structure TransQuery where
  start_date : ℝ
  end_date : ℝ
  latitude : Option ℝ
  longitude : Option ℝ
  box_width : Option ℝ
  box_height : Option ℝ
  property_type : Option String

/-- The database: answers a joined-transactions query with a list of rows. -/
def TransSource : Type := TransQuery → List Transaction

/-- A Python runtime value occupying one of `get_joined_transactions`'s
slots: the callers pass floats (coordinates, box sizes) and `datetime`s
(dates, carried here by their ordinal).  Python's dynamic typing lets a
caller put either in any slot; the SQL building then fails on the wrong
kind. -/
inductive PyVal where
  | num : ℝ → PyVal
  | date : ℝ → PyVal

/-- The numeric content of a value. -/
def PyVal.val : PyVal → ℝ
  | PyVal.num x => x
  | PyVal.date x => x

/-- Is the value a `datetime`?  `datetime` arithmetic with a number raises
`TypeError`, and `.strftime` on a float raises `AttributeError`. -/
def PyVal.isDate : PyVal → Bool
  | PyVal.num _ => false
  | PyVal.date _ => true

/-- Does an optional slot hold a `datetime`? -/
def isDateSlot : Option PyVal → Bool
  | some p => p.isDate
  | none => false

/-- The parameter record a `get_joined_transactions` call pours into its SQL
slots, by numeric content, in the signature's order: `start_date`,
`end_date`, then the optional `latitude`, `longitude`, `box_width`,
`box_height`, `property_type`. -/
def queryOf (start_date end_date : PyVal)
    (latitude longitude box_width box_height : Option PyVal)
    (property_type : Option String) : TransQuery :=
  ⟨start_date.val, end_date.val, Option.map PyVal.val latitude,
    Option.map PyVal.val longitude, Option.map PyVal.val box_width,
    Option.map PyVal.val box_height, property_type⟩

/-- `access.get_joined_transactions` (lines 302–362), including its failure
ladder in source order: the latitude/box_height and longitude/box_width
pairing guards raise `RuntimeError` (lines 329–332); building the latitude
constraint evaluates `latitude + box_height / 2` (line 342), which raises
`TypeError` when either slot holds a `datetime`; the longitude constraint
likewise (line 347); then `start_date.strftime` and `end_date.strftime`
(line 354) raise `AttributeError` on a non-`datetime`.  Only then is the
query issued; the issued query is returned with the database's rows so that
callers' traces can record what was asked. -/
def get_joined_transactions (conn : TransSource) (start_date end_date : PyVal)
    (latitude longitude box_width box_height : Option PyVal)
    (property_type : Option String) :
    Except String (TransQuery × List Transaction) :=
  if latitude.isSome && box_height.isNone then Except.error "RuntimeError"
  else if longitude.isSome && box_width.isNone then Except.error "RuntimeError"
  else if latitude.isSome && (isDateSlot latitude || isDateSlot box_height) then
    Except.error "TypeError"
  else if longitude.isSome && (isDateSlot longitude || isDateSlot box_width) then
    Except.error "TypeError"
  else if !start_date.isDate then Except.error "AttributeError"
  else if !end_date.isDate then Except.error "AttributeError"
  else
    let q : TransQuery :=
      queryOf start_date end_date latitude longitude box_width box_height property_type
    Except.ok (q, conn q)

/-- The `while True` adaptive-sampling loop of `address.predict_price`
(lines 89–108), as a fuel-indexed recursion: `none` means the loop has not
left the `while` within `fuel` iterations.  On success it returns the
transaction list of the last query, the final value of the `bbox_size`
variable (already multiplied by `increase_factor` when the loop exits through
the ceiling check), and the trace of queries issued in order. -/
noncomputable def samplingLoop (conn : TransSource) (start_date end_date latitude longitude : ℝ)
    (property_type : Option String) (required_sample_size : ℕ)
    (increase_factor bbox_size_limit : ℝ) :
    ℕ → ℝ → Option (Except String (List Transaction) × ℝ × List TransQuery)
  | 0, _ => none
  | fuel + 1, bbox_size =>
    match get_joined_transactions conn (PyVal.date start_date) (PyVal.date end_date)
        (some (PyVal.num latitude)) (some (PyVal.num longitude))
        (some (PyVal.num bbox_size)) (some (PyVal.num bbox_size)) property_type with
    | Except.error e => some (Except.error e, bbox_size, [])
    | Except.ok (q, transaction_df) =>
      if transaction_df.length < required_sample_size then
        let bbox' := bbox_size * increase_factor
        if bbox_size_limit < bbox' then some (Except.ok transaction_df, bbox', [q])
        else
          match samplingLoop conn start_date end_date latitude longitude
              property_type required_sample_size increase_factor bbox_size_limit
              fuel bbox' with
          | none => none
          | some (r, b, qs) => some (r, b, q :: qs)
      else some (Except.ok transaction_df, bbox_size, [q])

/-- The `args` hyperparameter dictionary consumed by `address.predict_price`. -/
structure Args where
  time_range : ℤ
  bbox_size_initial : ℝ
  required_sample_size : ℕ
  increase_factor : ℝ
  bbox_size_limit : ℝ
  features : List (String × FeatureProp)

/-- The OpenStreetMap service: `ox.geometries_from_bbox(north, south, east,
west, tags)` returns the POIs in the box. -/
def POISource : Type := ℝ → ℝ → ℝ → ℝ → List (String × String) → List POI

/-- `assess.get_bbox` (lines 212–224): (north, south, west, east) from a
center and box dimensions. -/
noncomputable def get_bbox (latitude longitude box_width box_height : ℝ) : ℝ × ℝ × ℝ × ℝ :=
  (latitude + box_height / 2, latitude - box_height / 2,
    longitude - box_width / 2, longitude + box_width / 2)

/-- `assess.download_POI_around_coordinate` (lines 140–165): builds the bbox
and queries the POI source with `(north, south, east, west, tags)`.  The
column projection of the original only selects attribute columns of the
returned geodataframe; the POIs themselves (their geometries) pass through
unchanged, which is all the feature code reads. -/
noncomputable def download_POI_around_coordinate (src : POISource)
    (latitude longitude box_width box_height : ℝ)
    (tags : List (String × String)) : List POI :=
  match get_bbox latitude longitude box_width box_height with
  | (north, south, west, east) => src north south east west tags

/-- `assess.download_POI_for_feature_list` (lines 168–191): one POI download
per feature category, all with the same box dimensions. -/
noncomputable def download_POI_for_feature_list (src : POISource)
    (latitude longitude feature_box_width feature_box_height : ℝ)
    (features : List (String × FeatureProp)) : List (String × List POI) :=
  features.map (fun fp =>
    (fp.1, download_POI_around_coordinate src latitude longitude
      feature_box_width feature_box_height fp.2.tags))

/-- What a run of `predict_price` that reaches the regression step computed
and passed on: the realized bbox size, the derived `feature_bbox_size` and
`dist_threshold` locals (lines 126–127), the box dimensions actually handed
to `download_POI_for_feature_list` (line 131), the finished training and
observed feature tables, and the requested model name. -/
structure RunInfo where
  model_name : String
  bbox_size : ℝ
  feature_bbox_size : ℝ
  dist_threshold : ℝ
  poi_box_width : ℝ
  poi_box_height : ℝ
  df : DataFrame
  observed_df : DataFrame

/-- Outcome of `address.predict_price`: an uncaught Python exception, the
string return `"No samples in the training set"` (line 119), or arrival at
the GLM fit with the recorded run data. -/
inductive PredictResult where
  | error : String → PredictResult
  | noSamples : PredictResult
  | fit : RunInfo → PredictResult

/-- `address.filter_out_validation_data` (lines 154–163):
`transaction_df[transaction_df.db_id != val_db_id]`. -/
def filter_out_validation_data (transaction_df : List Transaction)
    (val_db_id : ℕ) : List Transaction :=
  transaction_df.filter (fun t => t.db_id ≠ val_db_id)

/-- `address.predict_price` (lines 56–151).  Returns the outcome together
with the trace of transaction queries issued, or `none` when the sampling
loop does not finish within `fuel` iterations.  Mirrors the source order:
sampling loop; fallback call with the property-type filter dropped when
still short of `required_sample_size` (lines 111–114 — the positional
arguments put the coordinates in the date slots, the bbox size in the
coordinate slots, and the `datetime`s in the box-dimension slots, so the
callee raises `TypeError` while building its SQL; the attempted call's
parameter record is still appended to the trace); the emptiness check
(line 118) before `df_filter` is applied (lines 122–123); feature-size
derivation; POI download with `bbox_size` as both box dimensions; feature
tables for the transactions and the synthetic observed row; the constant
`one` column; model-name dispatch. -/
noncomputable def predict_price (conn : TransSource) (src : POISource)
    (latitude longitude date : ℝ) (property_type : Option String) (args : Args)
    (model_name : String) (debug_mod : Bool)
    (df_filter : Option (List Transaction → List Transaction)) (fuel : ℕ) :
    Option (PredictResult × List TransQuery) :=
  let start_date := date - ((args.time_range.fdiv 2 : ℤ) : ℝ)
  let end_date := date + ((args.time_range.fdiv 2 : ℤ) : ℝ)
  match samplingLoop conn start_date end_date latitude longitude property_type
      args.required_sample_size args.increase_factor args.bbox_size_limit fuel
      args.bbox_size_initial with
  | none => none
  | some (Except.error e, _, qs) => some (PredictResult.error e, qs)
  | some (Except.ok tdf, bbox_size, qs) =>
    let q2 : TransQuery :=
      queryOf (PyVal.num latitude) (PyVal.num longitude)
        (some (PyVal.num bbox_size)) (some (PyVal.num bbox_size))
        (some (PyVal.date start_date)) (some (PyVal.date end_date)) none
    let afterFallback : Except (String × List TransQuery)
        (List Transaction × List TransQuery) :=
      if tdf.length < args.required_sample_size then
        match get_joined_transactions conn (PyVal.num latitude) (PyVal.num longitude)
            (some (PyVal.num bbox_size)) (some (PyVal.num bbox_size))
            (some (PyVal.date start_date)) (some (PyVal.date end_date)) none with
        | Except.error e => Except.error (e, qs ++ [q2])
        | Except.ok (q2', tdf2) => Except.ok (tdf2, qs ++ [q2'])
      else Except.ok (tdf, qs)
    match afterFallback with
    | Except.error (e, tr) => some (PredictResult.error e, tr)
    | Except.ok (transaction_df, trace) =>
      if transaction_df.length = 0 then some (PredictResult.noSamples, trace)
      else
        let filtered_df :=
          match df_filter with
          | none => transaction_df
          | some f => f transaction_df
        let feature_bbox_size := bbox_size * 2
        let dist_threshold := bbox_size / 2
        let df0 : DataFrame :=
          [("price", filtered_df.map Transaction.price),
            ("lattitude", filtered_df.map Transaction.lattitude),
            ("longitude", filtered_df.map Transaction.longitude)]
        let pois_map := download_POI_for_feature_list src latitude longitude
          bbox_size bbox_size args.features
        match calculate_features df0 args.features dist_threshold pois_map with
        | Except.error e => some (PredictResult.error e, trace)
        | Except.ok df1 =>
          let df2 := setCol df1 "one" (List.replicate (nrows df1) 10)
          let odf0 : DataFrame := [("lattitude", [latitude]), ("longitude", [longitude])]
          match calculate_features odf0 args.features dist_threshold pois_map with
          | Except.error e => some (PredictResult.error e, trace)
          | Except.ok odf1 =>
            let odf2 := setCol odf1 "one" (List.replicate (nrows odf1) 10)
            if model_name = "poisson" then
              some (PredictResult.fit
                ⟨model_name, bbox_size, feature_bbox_size, dist_threshold,
                  bbox_size, bbox_size, df2, odf2⟩, trace)
            else if model_name = "gaussian" then
              some (PredictResult.fit
                ⟨model_name, bbox_size, feature_bbox_size, dist_threshold,
                  bbox_size, bbox_size, df2, odf2⟩, trace)
            else some (PredictResult.error "NotImplementedError", trace)

/-- The call `evaluate_model` makes for one validation row (lines 180–191):
`predict_price` at the row's location, date and property type, with a
leave-one-out filter on the row's `db_id` and `debug_mod=False`. -/
noncomputable def rowPredict (conn : TransSource) (src : POISource) (args : Args)
    (model_name : String) (fuel : ℕ) (row : Transaction) :
    Option (PredictResult × List TransQuery) :=
  predict_price conn src row.lattitude row.longitude row.date_of_transfer
    (some row.property_type) args model_name false
    (some (fun df => filter_out_validation_data df row.db_id)) fuel

/-- `address.evaluate_model` (lines 166–194): iterate over the validation
rows in order, appending the actual price and the value returned by
`predict_price` for each.  A `PredictResult.error` models an uncaught Python
exception, which aborts the whole batch; `none` again means a sampling loop
that never finished. -/
noncomputable def evaluate_model (conn : TransSource) (src : POISource)
    (validation_df : List Transaction) (model_name : String) (args : Args)
    (fuel : ℕ) : Option (Except String (List ℝ × List PredictResult)) :=
  match validation_df with
  | [] => some (Except.ok ([], []))
  | row :: rest =>
    match rowPredict conn src args model_name fuel row with
    | none => none
    | some (PredictResult.error e, _) => some (Except.error e)
    | some (pred, _) =>
      match evaluate_model conn src rest model_name args fuel with
      | none => none
      | some (Except.error e) => some (Except.error e)
      | some (Except.ok (rs, ps)) => some (Except.ok (row.price :: rs, pred :: ps))

/-- The box widths of a query trace, in order (every query the sampling loop
issues carries `some bbox_size` as its width). -/
def queryWidths (qs : List TransQuery) : List ℝ :=
  qs.filterMap TransQuery.box_width

/-- Projection: the query trace of a `predict_price` outcome. -/
def traceOf (o : Option (PredictResult × List TransQuery)) : Option (List TransQuery) :=
  Option.map Prod.snd o

/-- Projection: the run data when `predict_price` reached the regression. -/
def runInfoOf (o : Option (PredictResult × List TransQuery)) : Option RunInfo :=
  match o with
  | some (PredictResult.fit info, _) => some info
  | _ => none

/-- Projection: row count of the training feature table of a run that reached
the regression. -/
def trainingRows (o : Option (PredictResult × List TransQuery)) : Option ℕ :=
  Option.map (fun info => nrows info.df) (runInfoOf o)

/-- Projection: did `predict_price` return the
`"No samples in the training set"` failure value? -/
def isNoSamplesResult (o : Option (PredictResult × List TransQuery)) : Bool :=
  match o with
  | some (PredictResult.noSamples, _) => true
  | _ => false

end Fynesse

namespace Fynesse

lemma shortest_fold_le (latitude longitude : ℝ) (pois : List POI) (acc : ℝ) :
    pois.foldl (fun s p => min s (dist latitude longitude p)) acc ≤ acc := by
  induction pois generalizing acc with
  | nil => simp
  | cons p rest ih =>
    calc rest.foldl (fun s q => min s (dist latitude longitude q))
          (min acc (dist latitude longitude p))
        ≤ min acc (dist latitude longitude p) := ih _
      _ ≤ acc := min_le_left _ _

lemma shortest_fold_nonneg (latitude longitude : ℝ) (pois : List POI) (acc : ℝ)
    (hacc : 0 ≤ acc) :
    0 ≤ pois.foldl (fun s p => min s (dist latitude longitude p)) acc := by
  induction pois generalizing acc with
  | nil => simpa
  | cons p rest ih =>
    exact ih _ (le_min hacc (Real.sqrt_nonneg _))

lemma shortest_fold_of_far (latitude longitude : ℝ) (pois : List POI) (acc : ℝ)
    (h : ∀ p ∈ pois, acc ≤ dist latitude longitude p) :
    pois.foldl (fun s p => min s (dist latitude longitude p)) acc = acc := by
  induction pois with
  | nil => rfl
  | cons p rest ih =>
    have h1 : min acc (dist latitude longitude p) = acc :=
      min_eq_left (h p (List.mem_cons_self _ _))
    simp only [List.foldl_cons, h1]
    exact ih (fun q hq => h q (List.mem_cons_of_mem _ hq))

/-- Claim C1 (as frozen) is false on the code: with an empty POI set and
threshold `1`, `get_shortest_distance_to_POI` returns `111`, which is neither
`≤ 1` nor equal to the threshold `1` — the function scales the clamped
degree-space minimum by `111` before returning it. -/
theorem C1_counterexample :
    get_shortest_distance_to_POI 0 0 [] 1 = 111 ∧
      ¬ get_shortest_distance_to_POI 0 0 [] 1 ≤ 1 := by
  constructor
  · simp [get_shortest_distance_to_POI]
  · simp only [get_shortest_distance_to_POI, List.foldl_nil]
    norm_num

/-- Claim C1, amended: for threshold `t > 0` the value returned by
`get_shortest_distance_to_POI` lies in `[0, t * 111]`, and it equals exactly
`t * 111` when no POI of the set has degree-space distance below `t` (the
clamping happens in degree space; the result is then scaled by 111). -/
theorem C1_shortest_distance_clamped (latitude longitude : ℝ) (pois : List POI)
    (t : ℝ) (ht : 0 < t) :
    0 ≤ get_shortest_distance_to_POI latitude longitude pois t ∧
      get_shortest_distance_to_POI latitude longitude pois t ≤ t * 111 ∧
      ((∀ p ∈ pois, t ≤ dist latitude longitude p) →
        get_shortest_distance_to_POI latitude longitude pois t = t * 111) := by
  unfold get_shortest_distance_to_POI
  refine ⟨?_, ?_, ?_⟩
  · exact mul_nonneg (shortest_fold_nonneg _ _ _ _ ht.le) (by norm_num)
  · exact mul_le_mul_of_nonneg_right (shortest_fold_le _ _ _ _) (by norm_num)
  · intro h
    rw [shortest_fold_of_far _ _ _ _ h]

/-- Witness instantiating `C1_shortest_distance_clamped` at a concrete input. -/
theorem C1_shortest_distance_clamped_witness :
    (0:ℝ) < 2 ∧
      (0 ≤ get_shortest_distance_to_POI 0 0 [] 2 ∧
        get_shortest_distance_to_POI 0 0 [] 2 ≤ 2 * 111 ∧
        ((∀ p ∈ ([] : List POI), 2 ≤ dist 0 0 p) →
          get_shortest_distance_to_POI 0 0 [] 2 = 2 * 111)) :=
  ⟨by norm_num, C1_shortest_distance_clamped 0 0 [] 2 (by norm_num)⟩

/-- Claim C2: the code raises rather than returning the documented fallback.
On an empty POI set `get_average_distance_to_POI` evaluates
`total_dis / len(pois)` with `len(pois) = 0`, which raises `ZeroDivisionError`
in Python — it does not resolve to the defined fallback value `0`. -/
theorem C2_average_distance_raises :
    get_average_distance_to_POI 0 0 [] 1 = Except.error "ZeroDivisionError" := rfl

lemma getCol_cons (c : String × List ℝ) (df : DataFrame) (name : String) :
    getCol (c :: df) name = if c.1 = name then some c.2 else getCol df name := by
  by_cases h : c.1 = name
  · rw [if_pos h]
    unfold getCol
    rw [List.find?_cons_of_pos _ (by simpa using h)]
    rfl
  · rw [if_neg h]
    unfold getCol
    rw [List.find?_cons_of_neg _ (by simpa using h)]

lemma getCol_length {df : DataFrame} {n : ℕ} {name : String} {vs : List ℝ}
    (hwf : wfTable df n) (h : getCol df name = some vs) : vs.length = n := by
  unfold getCol at h
  cases hfind : df.find? (fun c => c.1 == name) with
  | none => rw [hfind] at h; simp at h
  | some c =>
    rw [hfind] at h
    simp only [Option.map_some', Option.some.injEq] at h
    exact h ▸ hwf c (List.mem_of_find?_eq_some hfind)

lemma getCol_mem {df : DataFrame} {name : String} {vs : List ℝ}
    (h : getCol df name = some vs) : (name, vs) ∈ df := by
  unfold getCol at h
  cases hfind : df.find? (fun c => c.1 == name) with
  | none => rw [hfind] at h; simp at h
  | some c =>
    rw [hfind] at h
    simp only [Option.map_some', Option.some.injEq] at h
    have h1 : c.1 = name := by simpa using List.find?_some hfind
    have h2 : c = (name, vs) := by
      cases c
      simp_all
    exact h2 ▸ List.mem_of_find?_eq_some hfind

lemma getCol_append_left {df : DataFrame} {name : String} {vs : List ℝ}
    (l₂ : DataFrame) (h : getCol df name = some vs) :
    getCol (df ++ l₂) name = some vs := by
  induction df with
  | nil => simp [getCol] at h
  | cons c rest ih =>
    rw [getCol_cons] at h
    rw [List.cons_append, getCol_cons]
    split_ifs at h ⊢ with hc
    · exact h
    · exact ih h

lemma setCol_fresh {df : DataFrame} {name : String} (vs : List ℝ)
    (h : name ∉ df.map Prod.fst) : setCol df name vs = df ++ [(name, vs)] := by
  unfold setCol
  rw [if_neg h]

lemma wfTable_append {df l₂ : DataFrame} {n : ℕ}
    (h1 : wfTable df n) (h2 : wfTable l₂ n) : wfTable (df ++ l₂) n :=
  fun c hc => (List.mem_append.mp hc).elim (h1 c) (h2 c)

lemma wfTable_single {name : String} {vs : List ℝ} {n : ℕ} (h : vs.length = n) :
    wfTable [(name, vs)] n := by
  intro c hc
  simp only [List.mem_singleton] at hc
  rw [hc]
  exact h

lemma applyRows_ok_length {f : ℝ → ℝ → Except String ℝ} :
    ∀ {rows : List (ℝ × ℝ)} {vs : List ℝ},
      applyRows f rows = Except.ok vs → vs.length = rows.length := by
  intro rows
  induction rows with
  | nil =>
    intro vs h
    simp only [applyRows, Except.ok.injEq] at h
    rw [← h]
    rfl
  | cons r rest ih =>
    intro vs h
    rw [applyRows] at h
    cases hf : f r.1 r.2 with
    | error e => rw [hf] at h; exact absurd h (by simp)
    | ok v =>
      rw [hf] at h
      cases ha : applyRows f rest with
      | error e => rw [ha] at h; exact absurd h (by simp)
      | ok vs' =>
        rw [ha] at h
        simp only [Except.ok.injEq] at h
        rw [← h]
        simp [ih ha]

lemma calculate_single_feature_eq {df : DataFrame}
    {fn : ℝ → ℝ → List POI → ℝ → Except String ℝ} {t : ℝ} {m fname : String}
    {poi : List POI} {lats lons : List ℝ}
    (hlat : getCol df "lattitude" = some lats)
    (hlon : getCol df "longitude" = some lons) :
    calculate_single_feature df fn t m poi fname =
      match applyRows (fun la lo => fn la lo poi t) (lats.zip lons) with
      | Except.error e => Except.error e
      | Except.ok vals => Except.ok (setCol df (fname ++ "_" ++ m) vals) := by
  unfold calculate_single_feature
  rw [hlat, hlon]

lemma calculate_single_feature_ok {df out : DataFrame}
    {fn : ℝ → ℝ → List POI → ℝ → Except String ℝ} {t : ℝ} {m fname : String}
    {poi : List POI} {lats lons : List ℝ}
    (hlat : getCol df "lattitude" = some lats)
    (hlon : getCol df "longitude" = some lons)
    (h : calculate_single_feature df fn t m poi fname = Except.ok out) :
    ∃ vals, applyRows (fun la lo => fn la lo poi t) (lats.zip lons) = Except.ok vals ∧
      vals.length = (lats.zip lons).length ∧
      out = setCol df (fname ++ "_" ++ m) vals := by
  rw [calculate_single_feature_eq hlat hlon] at h
  split at h
  · exact Except.noConfusion h
  · rename_i vals ha
    exact ⟨vals, ha, applyRows_ok_length ha, (Except.ok.inj h).symm⟩

lemma getCol_of_mem {df : DataFrame} {c : String × List ℝ}
    (hnd : (df.map Prod.fst).Nodup) (hc : c ∈ df) : getCol df c.1 = some c.2 := by
  induction df with
  | nil => cases hc
  | cons d rest ih =>
    rw [getCol_cons]
    rcases List.mem_cons.mp hc with rfl | hc'
    · rw [if_pos rfl]
    · have hd : d.1 ≠ c.1 := by
        rw [List.map_cons, List.nodup_cons] at hnd
        intro e
        exact hnd.1 (e ▸ List.mem_map_of_mem Prod.fst hc')
      rw [if_neg hd]
      exact ih (by rw [List.map_cons, List.nodup_cons] at hnd; exact hnd.2) hc'

lemma methodCols_cons (fname m : String) (ms : List String) :
    methodCols fname (m :: ms) = (fname ++ "_" ++ m) :: methodCols fname ms := rfl

lemma featureCols_cons (fname : String) (prop : FeatureProp)
    (rest : List (String × FeatureProp)) :
    featureCols ((fname, prop) :: rest) =
      methodCols fname prop.methods ++ featureCols rest := rfl

lemma calcMethods_spec (t : ℝ) (pmap : List (String × List POI)) (fname : String) :
    ∀ (ms : List String) (df out : DataFrame) (n : ℕ) (lats lons : List ℝ),
      (df.map Prod.fst).Nodup →
      wfTable df n →
      getCol df "lattitude" = some lats →
      getCol df "longitude" = some lons →
      (methodCols fname ms).Nodup →
      (∀ s ∈ methodCols fname ms, s ∉ df.map Prod.fst) →
      calcMethods t pmap df fname ms = Except.ok out →
      wfTable out n ∧ (∀ c ∈ df, getCol out c.1 = some c.2) ∧
        out.map Prod.fst = df.map Prod.fst ++ methodCols fname ms := by
  intro ms
  induction ms with
  | nil =>
    intro df out n lats lons hnd hwf hlat hlon _ _ h
    simp only [calcMethods, Except.ok.injEq] at h
    subst h
    exact ⟨hwf, fun c hc => getCol_of_mem hnd hc, by simp [methodCols]⟩
  | cons m ms' ih =>
    intro df out n lats lons hnd hwf hlat hlon hnodup hfresh h
    rw [methodCols_cons] at hnodup hfresh
    rw [List.nodup_cons] at hnodup
    simp only [calcMethods] at h
    split at h
    · exact Except.noConfusion h
    · split at h
      · exact Except.noConfusion h
      · split at h
        · exact Except.noConfusion h
        · rename_i fn hfn poi hdg df1 hcs
          obtain ⟨vals, _, hlen, hdf1⟩ := calculate_single_feature_ok hlat hlon hcs
          have hcname : (fname ++ "_" ++ m) ∉ df.map Prod.fst :=
            hfresh _ (List.mem_cons_self _ _)
          have hdf1' : df1 = df ++ [(fname ++ "_" ++ m, vals)] := by
            rw [hdf1, setCol_fresh _ hcname]
          have hvlen : vals.length = n := by
            rw [hlen, List.length_zip, getCol_length hwf hlat,
              getCol_length hwf hlon, min_self]
          have hwf1 : wfTable df1 n :=
            hdf1' ▸ wfTable_append hwf (wfTable_single hvlen)
          have hnames1 : df1.map Prod.fst = df.map Prod.fst ++ [fname ++ "_" ++ m] := by
            rw [hdf1', List.map_append]
            rfl
          have hnd1 : (df1.map Prod.fst).Nodup := by
            rw [hnames1, List.nodup_append]
            refine ⟨hnd, List.nodup_singleton _, fun a ha => ?_⟩
            simp only [List.mem_singleton]
            rintro rfl
            exact hcname ha
          have hlat1 : getCol df1 "lattitude" = some lats :=
            hdf1' ▸ getCol_append_left _ hlat
          have hlon1 : getCol df1 "longitude" = some lons :=
            hdf1' ▸ getCol_append_left _ hlon
          have hfresh' : ∀ s ∈ methodCols fname ms', s ∉ df1.map Prod.fst := by
            intro s hs
            rw [hnames1]
            intro hmem
            rcases List.mem_append.mp hmem with hin | hin
            · exact hfresh s (List.mem_cons_of_mem _ hs) hin
            · rw [List.mem_singleton] at hin
              exact hnodup.1 (hin ▸ hs)
          obtain ⟨hwfo, hpreso, hnameso⟩ :=
            ih df1 out n lats lons hnd1 hwf1 hlat1 hlon1 hnodup.2 hfresh' h
          refine ⟨hwfo, ?_, ?_⟩
          · intro c hc
            exact hpreso c (hdf1' ▸ List.mem_append_left _ hc)
          · rw [hnameso, hnames1, List.append_assoc]
            rfl

lemma calculate_features_spec (t : ℝ) (pmap : List (String × List POI)) :
    ∀ (features : List (String × FeatureProp)) (df out : DataFrame) (n : ℕ)
      (lats lons : List ℝ),
      (df.map Prod.fst).Nodup →
      wfTable df n →
      getCol df "lattitude" = some lats →
      getCol df "longitude" = some lons →
      (featureCols features).Nodup →
      (∀ s ∈ featureCols features, s ∉ df.map Prod.fst) →
      calculate_features df features t pmap = Except.ok out →
      wfTable out n ∧ (∀ c ∈ df, getCol out c.1 = some c.2) ∧
        out.map Prod.fst = df.map Prod.fst ++ featureCols features := by
  intro features
  induction features with
  | nil =>
    intro df out n lats lons hnd hwf _ _ _ _ h
    simp only [calculate_features, Except.ok.injEq] at h
    subst h
    exact ⟨hwf, fun c hc => getCol_of_mem hnd hc, by simp [featureCols]⟩
  | cons fp rest ih =>
    intro df out n lats lons hnd hwf hlat hlon hnodup hfresh h
    obtain ⟨fname, prop⟩ := fp
    rw [featureCols_cons] at hnodup hfresh
    rw [List.nodup_append] at hnodup
    obtain ⟨hnd1, hnd2, hdisj⟩ := hnodup
    simp only [calculate_features] at h
    split at h
    · exact Except.noConfusion h
    · rename_i df1 hcm
      obtain ⟨hwf1, hpres1, hnames1⟩ :=
        calcMethods_spec t pmap fname prop.methods df df1 n lats lons hnd hwf hlat
          hlon hnd1 (fun s hs => hfresh s (List.mem_append_left _ hs)) hcm
      have hnd1' : (df1.map Prod.fst).Nodup := by
        rw [hnames1, List.nodup_append]
        exact ⟨hnd, hnd1, fun a ha hb => hfresh a (List.mem_append_left _ hb) ha⟩
      have hlat1 : getCol df1 "lattitude" = some lats :=
        hpres1 ("lattitude", lats) (getCol_mem hlat)
      have hlon1 : getCol df1 "longitude" = some lons :=
        hpres1 ("longitude", lons) (getCol_mem hlon)
      have hfresh' : ∀ s ∈ featureCols rest, s ∉ df1.map Prod.fst := by
        intro s hs
        rw [hnames1]
        intro hmem
        rcases List.mem_append.mp hmem with hin | hin
        · exact hfresh s (List.mem_append_right _ hs) hin
        · exact hdisj hin hs
      obtain ⟨hwfo, hpreso, hnameso⟩ :=
        ih df1 out n lats lons hnd1' hwf1 hlat1 hlon1 hnd2 hfresh' h
      refine ⟨hwfo, ?_, ?_⟩
      · intro c hc
        exact hpreso (c.1, c.2) (getCol_mem (hpres1 c hc))
      · rw [hnameso, hnames1, List.append_assoc, featureCols_cons]

/-- Claim C9 (as frozen) is false on the code: not every (record table,
feature specification, threshold, POI map) input yields a table at all — an
`avg_dist` method over a category whose POI set is empty raises
`ZeroDivisionError` midway, so `calculate_features` returns no table for this
concrete input. -/
theorem C9_counterexample :
    calculate_features [("lattitude", [0]), ("longitude", [0])]
        [("school", ⟨[], ["avg_dist"]⟩)] 1 [("school", [])] =
      Except.error "ZeroDivisionError" := rfl

/-- Claim C9, amended: whenever `calculate_features` does return a table (no
feature computation raised), given a well-formed input frame with `n` rows,
`lattitude`/`longitude` columns, and generated feature-column names that are
pairwise distinct and distinct from the existing columns, the output table
has every column of length `n` (row count preserved), every input column is
carried over with its values unchanged (row-for-row correspondence with the
input order), and its column list is the input columns followed by exactly
one new column per (category, method) pair, in specification order. -/
theorem C9_feature_table_shape (df out : DataFrame)
    (features : List (String × FeatureProp)) (t : ℝ)
    (pmap : List (String × List POI)) (n : ℕ) (lats lons : List ℝ)
    (hnd : (df.map Prod.fst).Nodup) (hwf : wfTable df n)
    (hlat : getCol df "lattitude" = some lats)
    (hlon : getCol df "longitude" = some lons)
    (hnodup : (featureCols features).Nodup)
    (hfresh : ∀ s ∈ featureCols features, s ∉ df.map Prod.fst)
    (h : calculate_features df features t pmap = Except.ok out) :
    wfTable out n ∧ (∀ c ∈ df, getCol out c.1 = some c.2) ∧
      out.map Prod.fst = df.map Prod.fst ++ featureCols features :=
  calculate_features_spec t pmap features df out n lats lons hnd hwf hlat hlon
    hnodup hfresh h

/-- Witness instantiating `C9_feature_table_shape` on a concrete one-row
table with a single `cnt` feature. -/
theorem C9_feature_table_shape_witness :
    (([("lattitude", [(0:ℝ)]), ("longitude", [0])] : DataFrame).map Prod.fst).Nodup ∧
      wfTable [("lattitude", [(0:ℝ)]), ("longitude", [0])] 1 ∧
      getCol [("lattitude", [(0:ℝ)]), ("longitude", [0])] "lattitude" = some [0] ∧
      getCol [("lattitude", [(0:ℝ)]), ("longitude", [0])] "longitude" = some [0] ∧
      (featureCols [("school", ⟨[], ["cnt"]⟩)]).Nodup ∧
      (∀ s ∈ featureCols [("school", ⟨[], ["cnt"]⟩)],
        s ∉ (([("lattitude", [(0:ℝ)]), ("longitude", [0])] : DataFrame).map Prod.fst)) ∧
      calculate_features [("lattitude", [(0:ℝ)]), ("longitude", [0])]
          [("school", ⟨[], ["cnt"]⟩)] 1 [("school", [])] =
        Except.ok [("lattitude", [0]), ("longitude", [0]),
          ("school_cnt", [get_cnt_of_POI 0 0 [] 1])] ∧
      (wfTable [("lattitude", [(0:ℝ)]), ("longitude", [0]),
          ("school_cnt", [get_cnt_of_POI 0 0 [] 1])] 1 ∧
        (∀ c ∈ ([("lattitude", [(0:ℝ)]), ("longitude", [0])] : DataFrame),
          getCol [("lattitude", [(0:ℝ)]), ("longitude", [0]),
            ("school_cnt", [get_cnt_of_POI 0 0 [] 1])] c.1 = some c.2) ∧
        ([("lattitude", [(0:ℝ)]), ("longitude", [0]),
            ("school_cnt", [get_cnt_of_POI 0 0 [] 1])] : DataFrame).map Prod.fst =
          ([("lattitude", [(0:ℝ)]), ("longitude", [0])] : DataFrame).map Prod.fst ++
            featureCols [("school", ⟨[], ["cnt"]⟩)]) := by
  refine ⟨by simp, by simp [wfTable], rfl, rfl, by simp [featureCols, methodCols],
    by simp [featureCols, methodCols], rfl, ?_⟩
  exact C9_feature_table_shape _ _ _ 1 [("school", [])] 1 [0] [0] (by simp)
    (by simp [wfTable]) rfl rfl (by simp [featureCols, methodCols])
    (by simp [featureCols, methodCols]) rfl

/-- Claim C10 (as frozen) is false on the code: a pre-existing column whose
name coincides with a generated feature-column name is overwritten, not left
unchanged — here the input column `school_cnt = [42]` becomes `[0]`. -/
theorem C10_counterexample :
    calculate_features [("lattitude", [0]), ("longitude", [0]), ("school_cnt", [42])]
        [("school", ⟨[], ["cnt"]⟩)] 1 [("school", [])] =
      Except.ok [("lattitude", [0]), ("longitude", [0]),
        ("school_cnt", [get_cnt_of_POI 0 0 [] 1])] ∧
      get_cnt_of_POI 0 0 [] 1 = 0 ∧ (42:ℝ) ≠ 0 := by
  refine ⟨rfl, rfl, by norm_num⟩

/-- Claim C10, amended: provided no generated feature-column name collides
with an existing column or with another generated name, whenever
`calculate_features` returns a table it leaves every input column's values
unchanged and only appends the new `category_method` columns (the computation
is a pure function of its inputs, so determinism is definitional). -/
theorem C10_frame_preservation (df out : DataFrame)
    (features : List (String × FeatureProp)) (t : ℝ)
    (pmap : List (String × List POI)) (n : ℕ) (lats lons : List ℝ)
    (hnd : (df.map Prod.fst).Nodup) (hwf : wfTable df n)
    (hlat : getCol df "lattitude" = some lats)
    (hlon : getCol df "longitude" = some lons)
    (hnodup : (featureCols features).Nodup)
    (hfresh : ∀ s ∈ featureCols features, s ∉ df.map Prod.fst)
    (h : calculate_features df features t pmap = Except.ok out) :
    (∀ c ∈ df, getCol out c.1 = some c.2) ∧
      out.map Prod.fst = df.map Prod.fst ++ featureCols features :=
  (calculate_features_spec t pmap features df out n lats lons hnd hwf hlat hlon
    hnodup hfresh h).2

/-- Witness instantiating `C10_frame_preservation` on a concrete two-row
table that carries a `price` column through unchanged. -/
theorem C10_frame_preservation_witness :
    calculate_features [("price", [(7:ℝ), 8]), ("lattitude", [0, 1]), ("longitude", [0, 1])]
        [("school", ⟨[], ["cnt"]⟩)] 1 [("school", [])] =
      Except.ok [("price", [(7:ℝ), 8]), ("lattitude", [0, 1]), ("longitude", [0, 1]),
        ("school_cnt", [get_cnt_of_POI 0 0 [] 1, get_cnt_of_POI 1 1 [] 1])] ∧
      ((∀ c ∈ ([("price", [(7:ℝ), 8]), ("lattitude", [0, 1]), ("longitude", [0, 1])] : DataFrame),
        getCol [("price", [(7:ℝ), 8]), ("lattitude", [0, 1]), ("longitude", [0, 1]),
          ("school_cnt", [get_cnt_of_POI 0 0 [] 1, get_cnt_of_POI 1 1 [] 1])] c.1 = some c.2) ∧
        ([("price", [(7:ℝ), 8]), ("lattitude", [0, 1]), ("longitude", [0, 1]),
            ("school_cnt", [get_cnt_of_POI 0 0 [] 1, get_cnt_of_POI 1 1 [] 1])] : DataFrame).map Prod.fst =
          ([("price", [(7:ℝ), 8]), ("lattitude", [0, 1]), ("longitude", [0, 1])] : DataFrame).map Prod.fst ++
            featureCols [("school", ⟨[], ["cnt"]⟩)]) := by
  refine ⟨rfl, ?_⟩
  exact C10_frame_preservation _ _ _ 1 [("school", [])] 2 [0, 1] [0, 1] (by simp)
    (by simp [wfTable]) rfl rfl (by simp [featureCols, methodCols])
    (by simp [featureCols, methodCols]) rfl

lemma samplingLoop_succ (conn : TransSource) (sd ed lat lon : ℝ)
    (pt : Option String) (required : ℕ) (factor limit : ℝ) (fuel : ℕ) (bbox : ℝ) :
    samplingLoop conn sd ed lat lon pt required factor limit (fuel + 1) bbox =
      (if (conn ⟨sd, ed, some lat, some lon, some bbox, some bbox, pt⟩).length < required then
        if limit < bbox * factor then
          some (Except.ok (conn ⟨sd, ed, some lat, some lon, some bbox, some bbox, pt⟩),
            bbox * factor, [⟨sd, ed, some lat, some lon, some bbox, some bbox, pt⟩])
        else
          match samplingLoop conn sd ed lat lon pt required factor limit fuel
              (bbox * factor) with
          | none => none
          | some (r, b, qs) =>
            some (r, b, (⟨sd, ed, some lat, some lon, some bbox, some bbox, pt⟩ : TransQuery) :: qs)
      else
        some (Except.ok (conn ⟨sd, ed, some lat, some lon, some bbox, some bbox, pt⟩),
          bbox, [⟨sd, ed, some lat, some lon, some bbox, some bbox, pt⟩])) := rfl

lemma samplingLoop_terminates (conn : TransSource) (sd ed lat lon : ℝ)
    (pt : Option String) (required : ℕ) (factor limit : ℝ) :
    ∀ (n : ℕ) (bbox : ℝ), limit < bbox * factor ^ (n + 1) →
      (samplingLoop conn sd ed lat lon pt required factor limit (n + 1) bbox).isSome = true := by
  intro n
  induction n with
  | zero =>
    intro bbox h
    rw [samplingLoop_succ]
    by_cases h1 : (conn ⟨sd, ed, some lat, some lon, some bbox, some bbox, pt⟩).length < required
    · rw [if_pos h1, if_pos (by rwa [pow_one] at h)]
      rfl
    · rw [if_neg h1]
      rfl
  | succ k ih =>
    intro bbox h
    rw [samplingLoop_succ]
    by_cases h1 : (conn ⟨sd, ed, some lat, some lon, some bbox, some bbox, pt⟩).length < required
    · rw [if_pos h1]
      by_cases h2 : limit < bbox * factor
      · rw [if_pos h2]
        rfl
      · rw [if_neg h2]
        have h' : limit < bbox * factor * factor ^ (k + 1) := by
          have he : bbox * factor ^ (k + 1 + 1) = bbox * factor * factor ^ (k + 1) := by
            ring
          rwa [he] at h
        rcases Option.isSome_iff_exists.mp (ih (bbox * factor) h') with ⟨out, hout⟩
        rw [hout]
        rcases out with ⟨r, b, qs⟩
        rfl
    · rw [if_neg h1]
      rfl

lemma samplingLoop_monotone (conn : TransSource) (sd ed lat lon : ℝ)
    (pt : Option String) (required : ℕ) (factor limit : ℝ) (hf : 1 ≤ factor) :
    ∀ (fuel : ℕ) (bbox : ℝ), 0 ≤ bbox →
      ∀ (r : Except String (List Transaction)) (b : ℝ) (qs : List TransQuery),
        samplingLoop conn sd ed lat lon pt required factor limit fuel bbox =
          some (r, b, qs) →
        List.Chain' (fun x y => x ≤ y) (queryWidths qs) ∧
          ∀ w ∈ queryWidths qs, bbox ≤ w := by
  intro fuel
  induction fuel with
  | zero => intro bbox _ r b qs h; exact Option.noConfusion h
  | succ k ih =>
    intro bbox hb r b qs h
    rw [samplingLoop_succ] at h
    split_ifs at h with h1 h2
    · simp only [Option.some.injEq, Prod.mk.injEq] at h
      rw [← h.2.2]
      constructor
      · exact List.chain'_singleton _
      · intro w hw
        simp only [queryWidths, List.filterMap] at hw
        simp only [List.mem_singleton] at hw
        rw [hw]
    · cases hs : samplingLoop conn sd ed lat lon pt required factor limit k
          (bbox * factor) with
      | none => rw [hs] at h; exact Option.noConfusion h
      | some out =>
        rcases out with ⟨r', b', qs'⟩
        rw [hs] at h
        simp only [Option.some.injEq, Prod.mk.injEq] at h
        have hbf : 0 ≤ bbox * factor := mul_nonneg hb (le_trans zero_le_one hf)
        have hstep : bbox ≤ bbox * factor := le_mul_of_one_le_right hb hf
        obtain ⟨hch, hall⟩ := ih (bbox * factor) hbf r' b' qs' hs
        rw [← h.2.2]
        have hqw : queryWidths
            ((⟨sd, ed, some lat, some lon, some bbox, some bbox, pt⟩ : TransQuery) :: qs') =
            bbox :: queryWidths qs' := rfl
        rw [hqw]
        constructor
        · exact List.chain'_cons'.mpr
            ⟨fun y hy => le_trans hstep (hall y (List.mem_of_mem_head? hy)), hch⟩
        · intro w hw
          rcases List.mem_cons.mp hw with rfl | hw'
          · exact le_refl w
          · exact le_trans hstep (hall w hw')
    · simp only [Option.some.injEq, Prod.mk.injEq] at h
      rw [← h.2.2]
      constructor
      · exact List.chain'_singleton _
      · intro w hw
        simp only [queryWidths, List.filterMap] at hw
        simp only [List.mem_singleton] at hw
        rw [hw]

/-- Claim C4 (as frozen) is false on the code for the degenerate
configuration with initial bbox size `0`: growth factor `2 > 1` and ceiling
`0 ≥ 0 =` initial, yet the loop has not terminated after the claimed
`⌈log_2 (0/0)⌉ + 1 = 1` iterations (the bbox stays `0` forever, so it never
exceeds the ceiling and the source never returns enough rows). -/
theorem C4_zero_initial_counterexample :
    samplingLoop (fun _ => []) 0 0 0 0 none 1 2 0
      (⌈Real.logb 2 ((0:ℝ) / 0)⌉.toNat + 1) 0 = none := by
  have hn : ⌈Real.logb 2 ((0:ℝ) / 0)⌉.toNat + 1 = 0 + 1 := by
    norm_num
  rw [hn, samplingLoop_succ]
  rw [if_pos (by norm_num)]
  rw [if_neg (by norm_num)]
  rw [show samplingLoop (fun _ => []) 0 0 0 0 none 1 2 0 0 (0 * 2) = none from rfl]

/-- Claim C4, amended: for growth factor `> 1`, a *positive* initial bbox
size, and ceiling `≥` the initial size, the adaptive sampling loop of
`predict_price` finishes within `⌈log_factor (ceiling / initial)⌉ + 1`
iterations, and the bbox sizes of the queries it issues never decrease (each
is at least the initial size). -/
theorem C4_adaptive_loop_bound (conn : TransSource) (sd ed lat lon : ℝ)
    (pt : Option String) (required : ℕ) (factor limit initial : ℝ)
    (hf : 1 < factor) (hi : 0 < initial) (hil : initial ≤ limit) :
    (samplingLoop conn sd ed lat lon pt required factor limit
        (⌈Real.logb factor (limit / initial)⌉.toNat + 1) initial).isSome = true ∧
      ∀ (r : Except String (List Transaction)) (b : ℝ) (qs : List TransQuery),
        samplingLoop conn sd ed lat lon pt required factor limit
            (⌈Real.logb factor (limit / initial)⌉.toNat + 1) initial =
          some (r, b, qs) →
        List.Chain' (fun x y => x ≤ y) (queryWidths qs) ∧
          ∀ w ∈ queryWidths qs, initial ≤ w := by
  constructor
  · apply samplingLoop_terminates
    have hq : (0:ℝ) < limit / initial := div_pos (lt_of_lt_of_le hi hil) hi
    have hfac : (0:ℝ) < factor := lt_trans zero_lt_one hf
    have hlog : Real.logb factor (limit / initial) <
        ((⌈Real.logb factor (limit / initial)⌉.toNat + 1 : ℕ) : ℝ) := by
      have h1 : Real.logb factor (limit / initial) ≤
          (⌈Real.logb factor (limit / initial)⌉ : ℝ) := Int.le_ceil _
      have h2 : (⌈Real.logb factor (limit / initial)⌉ : ℝ) ≤
          ((⌈Real.logb factor (limit / initial)⌉.toNat : ℕ) : ℝ) := by
        exact_mod_cast Int.self_le_toNat _
      push_cast
      linarith
    have hkey : limit / initial <
        factor ^ (⌈Real.logb factor (limit / initial)⌉.toNat + 1) := by
      calc limit / initial
          = factor ^ Real.logb factor (limit / initial) :=
            (Real.rpow_logb hfac (ne_of_gt hf) hq).symm
        _ < factor ^ ((⌈Real.logb factor (limit / initial)⌉.toNat + 1 : ℕ) : ℝ) :=
            (Real.rpow_lt_rpow_left_iff hf).mpr hlog
        _ = factor ^ (⌈Real.logb factor (limit / initial)⌉.toNat + 1) :=
            Real.rpow_natCast _ _
    have := (div_lt_iff₀ hi).mp hkey
    linarith [this]
  · intro r b qs h
    exact samplingLoop_monotone conn sd ed lat lon pt required factor limit hf.le
      _ initial hi.le r b qs h

/-- Witness instantiating `C4_adaptive_loop_bound` on a concrete
configuration (growth 2, initial = ceiling = 1, empty transaction source). -/
theorem C4_adaptive_loop_bound_witness :
    (1:ℝ) < 2 ∧ (0:ℝ) < 1 ∧ (1:ℝ) ≤ 1 ∧
      ((samplingLoop (fun _ => []) 0 0 0 0 none 1 2 1
          (⌈Real.logb 2 ((1:ℝ) / 1)⌉.toNat + 1) 1).isSome = true ∧
        ∀ (r : Except String (List Transaction)) (b : ℝ) (qs : List TransQuery),
          samplingLoop (fun _ => []) 0 0 0 0 none 1 2 1
              (⌈Real.logb 2 ((1:ℝ) / 1)⌉.toNat + 1) 1 = some (r, b, qs) →
          List.Chain' (fun x y => x ≤ y) (queryWidths qs) ∧
            ∀ w ∈ queryWidths qs, (1:ℝ) ≤ w) :=
  ⟨by norm_num, by norm_num, le_refl 1,
    C4_adaptive_loop_bound (fun _ => []) 0 0 0 0 none 1 2 1 1
      (by norm_num) (by norm_num) (le_refl 1)⟩

lemma samplingLoop_stuck (conn : TransSource) (hconn : ∀ q, conn q = [])
    (sd ed lat lon : ℝ) (pt : Option String) :
    ∀ fuel : ℕ, samplingLoop conn sd ed lat lon pt 1 1 1 fuel 1 = none := by
  intro fuel
  induction fuel with
  | zero => rfl
  | succ k ih =>
    rw [samplingLoop_succ, hconn]
    rw [if_pos (by norm_num)]
    rw [if_neg (by norm_num)]
    rw [mul_one, ih]

/-- Claim C5: the code performs no configuration validation.  With
`increase_factor = 1 ≤ 1` the call is not rejected at entry with any
configuration error: `predict_price` issues transaction queries and, when the
source never returns enough rows, its sampling loop never terminates — for
every iteration budget the run is still inside the `while` loop. -/
theorem C5_no_growth_factor_validation :
    ∀ fuel : ℕ,
      predict_price (fun _ => []) (fun _ _ _ _ _ => []) 0 0 0 none
        ⟨0, 1, 1, 1, 1, []⟩ "poisson" true none fuel = none := by
  intro fuel
  have hs := samplingLoop_stuck (fun _ => []) (fun _ => rfl)
    (0 - (((0:ℤ).fdiv 2 : ℤ) : ℝ)) (0 + (((0:ℤ).fdiv 2 : ℤ) : ℝ)) 0 0 none fuel
  simp only [predict_price]
  rw [hs]

/-- Claim C3 (as frozen) is false on the code: the emptiness check happens
before `df_filter` is applied, so a transaction set emptied by the
leave-one-out filter is not detected.  Here the source returns one row, the
filter removes it, and `predict_price` proceeds to the regression step with a
zero-row training table instead of failing: the result is not the
no-samples failure and the training frame has 0 rows. -/
theorem C3_counterexample :
    isNoSamplesResult (predict_price (fun _ => [⟨5, 100, 0, 0, 0, "F"⟩])
        (fun _ _ _ _ _ => []) 0 0 0 (some "F") ⟨0, 1, 1, 2, 1, []⟩ "poisson" true
        (some (fun df => filter_out_validation_data df 5)) 1) = false ∧
      trainingRows (predict_price (fun _ => [⟨5, 100, 0, 0, 0, "F"⟩])
        (fun _ _ _ _ _ => []) 0 0 0 (some "F") ⟨0, 1, 1, 2, 1, []⟩ "poisson" true
        (some (fun df => filter_out_validation_data df 5)) 1) = some 0 :=
  ⟨rfl, rfl⟩

lemma predict_noSamples_pre (conn : TransSource) (src : POISource)
    (latitude longitude date : ℝ) (pt : Option String) (args : Args)
    (model_name : String) (dbg : Bool)
    (filt : Option (List Transaction → List Transaction)) (fuel : ℕ)
    (b : ℝ) (qs : List TransQuery)
    (hloop : samplingLoop conn (date - ((args.time_range.fdiv 2 : ℤ) : ℝ))
        (date + ((args.time_range.fdiv 2 : ℤ) : ℝ)) latitude longitude pt
        args.required_sample_size args.increase_factor args.bbox_size_limit fuel
        args.bbox_size_initial = some (Except.ok [], b, qs)) :
    (args.required_sample_size = 0 →
      predict_price conn src latitude longitude date pt args model_name dbg filt fuel =
        some (PredictResult.noSamples, qs)) ∧
    (0 < args.required_sample_size →
      predict_price conn src latitude longitude date pt args model_name dbg filt fuel =
        some (PredictResult.error "TypeError",
          qs ++ [⟨latitude, longitude, some b, some b,
            some (date - ((args.time_range.fdiv 2 : ℤ) : ℝ)),
            some (date + ((args.time_range.fdiv 2 : ℤ) : ℝ)), none⟩])) := by
  constructor
  · intro h0
    simp only [predict_price]
    rw [hloop]
    simp only [List.length_nil, h0]
    rw [if_neg (Nat.not_lt_zero _)]
    rfl
  · intro hreq
    simp only [predict_price]
    rw [hloop]
    simp only [List.length_nil]
    rw [if_pos hreq]
    rfl

/-- Claim C3, amended: the only path on which `predict_price` produces its
"insufficient data" failure value — the string return
`"No samples in the training set"` — is a transaction set that is empty
*before* the optional `df_filter` runs with no fallback triggered
(`required_sample_size = 0`); when the sample falls short with
`required_sample_size > 0`, the fallback call's scrambled positional
arguments make `get_joined_transactions` raise `TypeError` while building
its SQL, so the run raises instead of returning that failure value.
Emptiness caused by `df_filter` itself is never detected (the filter is
irrelevant to both conclusions). -/
theorem C3_empty_prefilter_noSamples (conn : TransSource) (src : POISource)
    (latitude longitude date : ℝ) (pt : Option String) (args : Args)
    (model_name : String) (dbg : Bool)
    (filt : Option (List Transaction → List Transaction)) (fuel : ℕ)
    (b : ℝ) (qs : List TransQuery)
    (hloop : samplingLoop conn (date - ((args.time_range.fdiv 2 : ℤ) : ℝ))
        (date + ((args.time_range.fdiv 2 : ℤ) : ℝ)) latitude longitude pt
        args.required_sample_size args.increase_factor args.bbox_size_limit fuel
        args.bbox_size_initial = some (Except.ok [], b, qs)) :
    (args.required_sample_size = 0 →
      predict_price conn src latitude longitude date pt args model_name dbg filt fuel =
        some (PredictResult.noSamples, qs)) ∧
    (0 < args.required_sample_size →
      predict_price conn src latitude longitude date pt args model_name dbg filt fuel =
        some (PredictResult.error "TypeError",
          qs ++ [⟨latitude, longitude, some b, some b,
            some (date - ((args.time_range.fdiv 2 : ℤ) : ℝ)),
            some (date + ((args.time_range.fdiv 2 : ℤ) : ℝ)), none⟩])) :=
  predict_noSamples_pre conn src latitude longitude date pt args model_name dbg
    filt fuel b qs hloop

/-- Witness instantiating `C3_empty_prefilter_noSamples` twice: once with
`required_sample_size = 0` (empty satisfied loop, no fallback — the
no-samples string is returned) and once with `required_sample_size = 1`
(exhausted loop — the fallback raises `TypeError`). -/
theorem C3_empty_prefilter_noSamples_witness :
    samplingLoop (fun _ => []) ((0:ℝ) - (((0:ℤ).fdiv 2 : ℤ) : ℝ))
        ((0:ℝ) + (((0:ℤ).fdiv 2 : ℤ) : ℝ)) 0 0 none 0 2 1 1 1 =
      some (Except.ok [], 1,
        [⟨(0:ℝ) - (((0:ℤ).fdiv 2 : ℤ) : ℝ), (0:ℝ) + (((0:ℤ).fdiv 2 : ℤ) : ℝ),
          some 0, some 0, some 1, some 1, none⟩]) ∧
      predict_price (fun _ => []) (fun _ _ _ _ _ => []) 0 0 0 none
          ⟨0, 1, 0, 2, 1, []⟩ "poisson" true none 1 =
        some (PredictResult.noSamples,
          [⟨(0:ℝ) - (((0:ℤ).fdiv 2 : ℤ) : ℝ), (0:ℝ) + (((0:ℤ).fdiv 2 : ℤ) : ℝ),
            some 0, some 0, some 1, some 1, none⟩]) ∧
      samplingLoop (fun _ => []) ((0:ℝ) - (((0:ℤ).fdiv 2 : ℤ) : ℝ))
          ((0:ℝ) + (((0:ℤ).fdiv 2 : ℤ) : ℝ)) 0 0 none 1 2 1 1 1 =
        some (Except.ok [], 1 * 2,
          [⟨(0:ℝ) - (((0:ℤ).fdiv 2 : ℤ) : ℝ), (0:ℝ) + (((0:ℤ).fdiv 2 : ℤ) : ℝ),
            some 0, some 0, some 1, some 1, none⟩]) ∧
      predict_price (fun _ => []) (fun _ _ _ _ _ => []) 0 0 0 none
          ⟨0, 1, 1, 2, 1, []⟩ "poisson" true none 1 =
        some (PredictResult.error "TypeError",
          [⟨(0:ℝ) - (((0:ℤ).fdiv 2 : ℤ) : ℝ), (0:ℝ) + (((0:ℤ).fdiv 2 : ℤ) : ℝ),
            some 0, some 0, some 1, some 1, none⟩] ++
          [⟨(0:ℝ), 0, some (1 * 2), some (1 * 2),
            some ((0:ℝ) - (((0:ℤ).fdiv 2 : ℤ) : ℝ)),
            some ((0:ℝ) + (((0:ℤ).fdiv 2 : ℤ) : ℝ)), none⟩]) := by
  have hloop0 : samplingLoop (fun _ => []) ((0:ℝ) - (((0:ℤ).fdiv 2 : ℤ) : ℝ))
      ((0:ℝ) + (((0:ℤ).fdiv 2 : ℤ) : ℝ)) 0 0 none 0 2 1 1 1 =
      some (Except.ok [], 1,
        [⟨(0:ℝ) - (((0:ℤ).fdiv 2 : ℤ) : ℝ), (0:ℝ) + (((0:ℤ).fdiv 2 : ℤ) : ℝ),
          some 0, some 0, some 1, some 1, none⟩]) := by
    rw [samplingLoop_succ]
    rw [if_neg (Nat.not_lt_zero _)]
  have hloop1 : samplingLoop (fun _ => []) ((0:ℝ) - (((0:ℤ).fdiv 2 : ℤ) : ℝ))
      ((0:ℝ) + (((0:ℤ).fdiv 2 : ℤ) : ℝ)) 0 0 none 1 2 1 1 1 =
      some (Except.ok [], 1 * 2,
        [⟨(0:ℝ) - (((0:ℤ).fdiv 2 : ℤ) : ℝ), (0:ℝ) + (((0:ℤ).fdiv 2 : ℤ) : ℝ),
          some 0, some 0, some 1, some 1, none⟩]) := by
    rw [samplingLoop_succ]
    rw [if_pos (by norm_num)]
    rw [if_pos (by norm_num)]
  exact ⟨hloop0,
    (C3_empty_prefilter_noSamples (fun _ => []) (fun _ _ _ _ _ => []) 0 0 0 none
      ⟨0, 1, 0, 2, 1, []⟩ "poisson" true none 1 1 _ hloop0).1 rfl,
    hloop1,
    (C3_empty_prefilter_noSamples (fun _ => []) (fun _ _ _ _ _ => []) 0 0 0 none
      ⟨0, 1, 1, 2, 1, []⟩ "poisson" true none 1 (1 * 2) _ hloop1).2 Nat.zero_lt_one⟩

lemma predict_noSamples_run (src : POISource) (lat lon date : ℝ)
    (pt : Option String) (model_name : String) (dbg : Bool)
    (filt : Option (List Transaction → List Transaction)) (tr : ℤ)
    (fs : List (String × FeatureProp)) :
    predict_price (fun _ => []) src lat lon date pt ⟨tr, 1, 0, 2, 1, fs⟩
        model_name dbg filt 1 =
      some (PredictResult.noSamples,
        [⟨date - ((tr.fdiv 2 : ℤ) : ℝ), date + ((tr.fdiv 2 : ℤ) : ℝ),
          some lat, some lon, some 1, some 1, pt⟩]) := by
  have hloop : samplingLoop (fun _ => []) (date - ((tr.fdiv 2 : ℤ) : ℝ))
      (date + ((tr.fdiv 2 : ℤ) : ℝ)) lat lon pt 0 2 1 1 1 =
      some (Except.ok [], 1,
        [⟨date - ((tr.fdiv 2 : ℤ) : ℝ), date + ((tr.fdiv 2 : ℤ) : ℝ),
          some lat, some lon, some 1, some 1, pt⟩]) := by
    rw [samplingLoop_succ]
    rw [if_neg (Nat.not_lt_zero _)]
  exact (predict_noSamples_pre (fun _ => []) src lat lon date pt ⟨tr, 1, 0, 2, 1, fs⟩
    model_name dbg filt 1 1 _ hloop).1 rfl

lemma predict_typeerror_run (src : POISource) (lat lon date : ℝ)
    (pt : Option String) (model_name : String) (dbg : Bool)
    (filt : Option (List Transaction → List Transaction)) (tr : ℤ)
    (fs : List (String × FeatureProp)) :
    predict_price (fun _ => []) src lat lon date pt ⟨tr, 1, 1, 2, 1, fs⟩
        model_name dbg filt 1 =
      some (PredictResult.error "TypeError",
        [⟨date - ((tr.fdiv 2 : ℤ) : ℝ), date + ((tr.fdiv 2 : ℤ) : ℝ),
            some lat, some lon, some 1, some 1, pt⟩,
          ⟨lat, lon, some (1 * 2), some (1 * 2),
            some (date - ((tr.fdiv 2 : ℤ) : ℝ)),
            some (date + ((tr.fdiv 2 : ℤ) : ℝ)), none⟩]) := by
  have hloop : samplingLoop (fun _ => []) (date - ((tr.fdiv 2 : ℤ) : ℝ))
      (date + ((tr.fdiv 2 : ℤ) : ℝ)) lat lon pt 1 2 1 1 1 =
      some (Except.ok [], 1 * 2,
        [⟨date - ((tr.fdiv 2 : ℤ) : ℝ), date + ((tr.fdiv 2 : ℤ) : ℝ),
          some lat, some lon, some 1, some 1, pt⟩]) := by
    rw [samplingLoop_succ]
    rw [if_pos (by norm_num)]
    rw [if_pos (by norm_num)]
  exact (predict_noSamples_pre (fun _ => []) src lat lon date pt ⟨tr, 1, 1, 2, 1, fs⟩
    model_name dbg filt 1 (1 * 2) _ hloop).2 Nat.zero_lt_one

/-- Claim C6: the exhausted-ceiling fallback of `predict_price` does attempt
exactly one further transaction-source call with the property-type filter
dropped, but it does not pass the parameters in the positions
`get_joined_transactions` expects: with latitude 50, longitude 7, date 1000
and property type `"F"`, the second recorded call has `start_date = 50` (the
latitude) and `end_date = 7` (the longitude), the last-reached bbox size in
the latitude/longitude slots, and the dates in the box-dimension slots
(which in fact makes the callee raise `TypeError` while building its SQL) —
while the first (in-loop) query shows the intended slotting. -/
theorem C6_fallback_scrambles_arguments :
    traceOf (predict_price (fun _ => []) (fun _ _ _ _ _ => []) 50 7 1000
        (some "F") ⟨0, 1, 1, 2, 1, []⟩ "poisson" true none 1) =
      some [⟨1000 - (((0:ℤ).fdiv 2 : ℤ) : ℝ), 1000 + (((0:ℤ).fdiv 2 : ℤ) : ℝ),
          some 50, some 7, some 1, some 1, some "F"⟩,
        ⟨50, 7, some (1 * 2), some (1 * 2),
          some (1000 - (((0:ℤ).fdiv 2 : ℤ) : ℝ)),
          some (1000 + (((0:ℤ).fdiv 2 : ℤ) : ℝ)), none⟩] ∧
      (50:ℝ) ≠ 1000 - (((0:ℤ).fdiv 2 : ℤ) : ℝ) := by
  constructor
  · rw [predict_typeerror_run (fun _ _ _ _ _ => []) 50 7 1000 (some "F") "poisson"
      true none 0 []]
    rfl
  · have h0 : ((0:ℤ).fdiv 2) = 0 := rfl
    rw [h0]
    push_cast
    norm_num

/-- Claim C7: on a successful run with realized bbox size `B = 4`,
`predict_price` derives `dist_threshold = B / 2` as claimed, and it also
computes `feature_bbox_size = B * 2` — but the box handed to the POI download
has width and height `B`, not `B * 2`: the `feature_bbox_size` local is dead.
So the claimed `B * 2` POI bbox does not hold on the code. -/
theorem C7_poi_bbox_not_doubled :
    Option.map (fun i => (i.bbox_size, i.dist_threshold, i.feature_bbox_size,
        i.poi_box_width, i.poi_box_height))
      (runInfoOf (predict_price (fun _ => [⟨1, 100, 0, 0, 0, "F"⟩])
        (fun _ _ _ _ _ => []) 0 0 0 none
        ⟨0, 4, 1, 2, 100, [("school", ⟨[("amenity", "school")], ["cnt"]⟩)]⟩
        "poisson" true none 1)) = some (4, 4 / 2, 4 * 2, 4, 4) ∧
      (4:ℝ) ≠ 4 * 2 := by
  constructor
  · rfl
  · norm_num

/-- Claim C8: `evaluate_model` returns two lists with one entry per
validation record in input order — the actual prices and, in the same
positions, exactly what `predict_price` returned for that record (so a
record whose prediction is the no-samples failure value contributes that
sentinel to the predictions list without aborting the batch; only an
uncaught exception, `PredictResult.error`, aborts). -/
theorem C8_evaluate_model_pairs (conn : TransSource) (src : POISource)
    (vdf : List Transaction) (model_name : String) (args : Args) (fuel : ℕ)
    (rs : List ℝ) (ps : List PredictResult)
    (h : evaluate_model conn src vdf model_name args fuel =
      some (Except.ok (rs, ps))) :
    rs = vdf.map Transaction.price ∧ rs.length = vdf.length ∧
      ps.length = vdf.length ∧
      vdf.map (fun r => Option.map Prod.fst (rowPredict conn src args model_name fuel r)) =
        ps.map some := by
  induction vdf generalizing rs ps with
  | nil =>
    simp only [evaluate_model, Option.some.injEq, Except.ok.injEq,
      Prod.mk.injEq] at h
    obtain ⟨h1, h2⟩ := h
    subst h1
    subst h2
    simp
  | cons row rest ih =>
    simp only [evaluate_model] at h
    cases hr : rowPredict conn src args model_name fuel row with
    | none => rw [hr] at h; exact Option.noConfusion h
    | some p =>
      rcases p with ⟨pred, tr⟩
      rw [hr] at h
      cases pred with
      | error e => simp at h
      | noSamples =>
        cases he : evaluate_model conn src rest model_name args fuel with
        | none => rw [he] at h; simp at h
        | some res =>
          rw [he] at h
          cases res with
          | error e => simp at h
          | ok pair =>
            rcases pair with ⟨rs', ps'⟩
            simp only [Option.some.injEq, Except.ok.injEq, Prod.mk.injEq] at h
            obtain ⟨h1, h2⟩ := h
            subst h1
            subst h2
            obtain ⟨ih1, ih2, ih3, ih4⟩ := ih rs' ps' he
            refine ⟨by rw [ih1]; rfl, by simp [ih2], by simp [ih3], ?_⟩
            simp only [List.map_cons, hr, ih4]
            rfl
      | fit info =>
        cases he : evaluate_model conn src rest model_name args fuel with
        | none => rw [he] at h; simp at h
        | some res =>
          rw [he] at h
          cases res with
          | error e => simp at h
          | ok pair =>
            rcases pair with ⟨rs', ps'⟩
            simp only [Option.some.injEq, Except.ok.injEq, Prod.mk.injEq] at h
            obtain ⟨h1, h2⟩ := h
            subst h1
            subst h2
            obtain ⟨ih1, ih2, ih3, ih4⟩ := ih rs' ps' he
            refine ⟨by rw [ih1]; rfl, by simp [ih2], by simp [ih3], ?_⟩
            simp only [List.map_cons, hr, ih4]
            rfl

/-- Witness instantiating `C8_evaluate_model_pairs` on a one-record
validation set whose prediction ends in the no-samples failure: the batch
still returns one (actual, sentinel) pair. -/
theorem C8_evaluate_model_pairs_witness :
    evaluate_model (fun _ => []) (fun _ _ _ _ _ => []) [⟨9, 500, 3, 4, 700, "D"⟩]
        "poisson" ⟨0, 1, 0, 2, 1, []⟩ 1 =
      some (Except.ok ([500], [PredictResult.noSamples])) ∧
      ([500] : List ℝ) = [(⟨9, 500, 3, 4, 700, "D"⟩ : Transaction)].map Transaction.price ∧
      ([500] : List ℝ).length = [(⟨9, 500, 3, 4, 700, "D"⟩ : Transaction)].length ∧
      ([PredictResult.noSamples]).length = [(⟨9, 500, 3, 4, 700, "D"⟩ : Transaction)].length ∧
      [(⟨9, 500, 3, 4, 700, "D"⟩ : Transaction)].map
          (fun r => Option.map Prod.fst
            (rowPredict (fun _ => []) (fun _ _ _ _ _ => []) ⟨0, 1, 0, 2, 1, []⟩
              "poisson" 1 r)) =
        ([PredictResult.noSamples]).map some := by
  have hrow : rowPredict (fun _ => []) (fun _ _ _ _ _ => []) ⟨0, 1, 0, 2, 1, []⟩
      "poisson" 1 ⟨9, 500, 3, 4, 700, "D"⟩ =
      some (PredictResult.noSamples,
        [⟨700 - (((0:ℤ).fdiv 2 : ℤ) : ℝ), 700 + (((0:ℤ).fdiv 2 : ℤ) : ℝ),
          some 3, some 4, some 1, some 1, some "D"⟩]) :=
    predict_noSamples_run (fun _ _ _ _ _ => []) 3 4 700 (some "D") "poisson" false
      (some (fun df => filter_out_validation_data df 9)) 0 []
  have heval : evaluate_model (fun _ => []) (fun _ _ _ _ _ => [])
      [⟨9, 500, 3, 4, 700, "D"⟩] "poisson" ⟨0, 1, 0, 2, 1, []⟩ 1 =
      some (Except.ok ([500], [PredictResult.noSamples])) := by
    simp only [evaluate_model]
    rw [hrow]
  exact ⟨heval,
    C8_evaluate_model_pairs (fun _ => []) (fun _ _ _ _ _ => [])
      [⟨9, 500, 3, 4, 700, "D"⟩] "poisson" ⟨0, 1, 0, 2, 1, []⟩ 1
      [500] [PredictResult.noSamples] heval⟩

end Fynesse
